import Mathlib

/-!
Verification development for the dasymetric ring-buffer population
redistribution widget (repository jsogle1/widgets).

The embedding models the recurring `processBuffer` / `processPoint`
algorithm of `src/buffer-dasymetric/src/runtime/widget.tsx` together with
the divergent iterations `src/unnamed/part_000`, `src/unnamed/part_002`
and `src/unnamed/part_004` where the frozen claims cite them.

JavaScript numbers are modelled as `JSNum` (a rational value or NaN);
attribute access `feature.attributes?.X`, which can yield `undefined`,
is modelled as `Option JSNum`.  Geometry objects are abstract: the
geometry engine is a record of functions returning `Option` (null).
-/

set_option maxRecDepth 40000

namespace Widgets

/-- A JavaScript number: NaN, or a finite value modelled as a rational.
(Infinities are outside the model; every operation the embedded code
performs on in-range census data stays finite.) -/
inductive JSNum where
  | nan : JSNum
  | num (q : ℚ) : JSNum
deriving DecidableEq

/-- JS test `isNaN(x)` for a number `x` (also `Number.isNaN`). -/
def JSNum.isNaN : JSNum → Bool
  | .nan => true
  | .num _ => false

/-- The rational value of a JS number, sending NaN to 0.  Used only at
points where the development proves NaN cannot occur. -/
def JSNum.toQ : JSNum → ℚ
  | .nan => 0
  | .num q => q

/-- JS comparison `x > 0` (false when x is NaN). -/
def JSNum.gtZero : JSNum → Bool
  | .nan => false
  | .num q => decide (0 < q)

/-- JS comparison `x <= 0` on a number (false when x is NaN). -/
def JSNum.leZero : JSNum → Bool
  | .nan => false
  | .num q => decide (q ≤ 0)

/-- JS division `a / b`.  NaN operands give NaN.  The `b = 0` branch is
mapped to NaN; every division in the embedded code is guarded by
`b > 0`, so this branch is never taken by the program. -/
def jsDiv : JSNum → JSNum → JSNum
  | .num a, .num b => if b = 0 then .nan else .num (a / b)
  | _, _ => .nan

/-- JS multiplication `a * b`; NaN operands give NaN. -/
def jsMul : JSNum → JSNum → JSNum
  | .num a, .num b => .num (a * b)
  | _, _ => .nan

/-- JS `Math.round(x)`: round half toward positive infinity, i.e.
`⌊x + 1/2⌋` for finite x, and NaN for NaN. -/
def jsRound : JSNum → JSNum
  | .nan => .nan
  | .num q => .num ((⌊q + 1/2⌋ : ℤ) : ℚ)

/-- A possibly-missing numeric attribute: `none` models `undefined`
(the attribute is absent), `some x` a JS number. -/
abbrev JSVal := Option JSNum

/-- JS falsiness `!x` for a possibly-undefined number: true for
`undefined`, NaN and 0. -/
def jsFalsy : JSVal → Bool
  | none => true
  | some .nan => true
  | some (.num q) => decide (q = 0)

/-- JS `x || 0` for a possibly-undefined number: `undefined`, NaN and 0
become 0, everything else is kept. -/
def jsOrZero : JSVal → JSNum
  | none => .num 0
  | some .nan => .num 0
  | some (.num q) => if q = 0 then .num 0 else .num q

/-- JS comparison `x <= 0` on a possibly-undefined value: `undefined`
coerces to NaN, and NaN comparisons are false. -/
def jsLeZero : JSVal → Bool
  | some (.num q) => decide (q ≤ 0)
  | _ => false

/-- Global JS `isNaN(x)`: `Number(undefined)` is NaN, so `undefined`
counts as NaN. -/
def jsIsNaN : JSVal → Bool
  | none => true
  | some .nan => true
  | some (.num _) => false

/-- Coercion of a possibly-undefined value into JS arithmetic:
`undefined` becomes NaN. -/
def jsToNum : JSVal → JSNum
  | none => .nan
  | some x => x

/-- One candidate feature returned by the census-layer query for one
ring, together with the geometry results the engine derives for it:
`clipped` is the result of `geometryEngine.intersect(feature.geometry,
ringBuffer)` — `none` models a null clipped geometry, `some a` a
non-null clipped geometry whose `geodesicArea(clippedFeature, "acres")`
equals `a`; `acres` is `feature.attributes?.ACRES` and `totalpop` is
`feature.attributes?.TOTALPOP`. -/
structure Candidate where
  clipped : Option JSNum
  acres : JSVal
  totalpop : JSVal
deriving DecidableEq

/-- Per-candidate step of `processBuffer` in
`src/buffer-dasymetric/src/runtime/widget.tsx` (lines 170 to 185); the
iterations `src/unnamed/part_001` (lines 125 to 137) and
`src/unnamed/part_006` (lines 119 to 131) contain the same code.
Returns `none` when the candidate is skipped (`return` inside the
`forEach` callback), otherwise `some adjPop`:

    const clippedFeature = geometryEngine.intersect(feature.geometry, ringBuffer);
    if (!clippedFeature) return;
    let originalAcres = feature.attributes?.ACRES;
    let clippedAcres = geometryEngine.geodesicArea(clippedFeature, "acres");
    if (!originalAcres || originalAcres <= 0 || isNaN(originalAcres)) return;
    const ratio = clippedAcres > 0 ? clippedAcres / originalAcres : 0;
    const adjPop = Math.round(ratio * (feature.attributes?.TOTALPOP || 0));
-/
def processCandidate (c : Candidate) : Option JSNum :=
  match c.clipped with
  | none => none
  | some clippedAcres =>
    if jsFalsy c.acres || jsLeZero c.acres || jsIsNaN c.acres then none
    else
      let ratio := if clippedAcres.gtZero then jsDiv clippedAcres (jsToNum c.acres)
                   else .num 0
      some (jsRound (jsMul ratio (jsOrZero c.totalpop)))

/-- Per-candidate step of `processBuffer` in `src/unnamed/part_004`
(lines 119 to 144).  Identical to `processCandidate` except that the
clipped area is clamped to the reference area before the ratio is
formed, and a NaN ratio is mapped to an adjusted population of 0:

    if (!originalAcres || originalAcres <= 0 || isNaN(originalAcres)) return;
    if (clippedAcres > originalAcres) clippedAcres = originalAcres;
    const ratio = clippedAcres > 0 ? clippedAcres / originalAcres : 0;
    const adjPop = isNaN(ratio) ? 0 : Math.round(ratio * (feature.attributes?.TOTALPOP || 0));
-/
def processCandidatePart004 (c : Candidate) : Option JSNum :=
  match c.clipped with
  | none => none
  | some clippedAcres0 =>
    if jsFalsy c.acres || jsLeZero c.acres || jsIsNaN c.acres then none
    else
      let acresN := jsToNum c.acres
      let clippedAcres :=
        match clippedAcres0, acresN with
        | .num a, .num b => if b < a then JSNum.num b else JSNum.num a
        | x, _ => x
      let ratio := if clippedAcres.gtZero then jsDiv clippedAcres acresN
                   else .num 0
      some (if ratio.isNaN then .num 0
            else jsRound (jsMul ratio (jsOrZero c.totalpop)))

/-- The reference area of a candidate as a rational, defined for
candidates that pass the ACRES guard (otherwise 0). -/
def acresQ (c : Candidate) : ℚ :=
  match c.acres with
  | some (.num q) => q
  | _ => 0

/-- The area ratio the engine forms for an accepted candidate:
`clippedAcres > 0 ? clippedAcres / originalAcres : 0`, as a rational
(0 when the clipped geometry is null or its area is NaN or nonpositive). -/
def areaRatio (c : Candidate) : ℚ :=
  match c.clipped with
  | some (.num a) => if 0 < a then a / acresQ c else 0
  | _ => 0

/-- The reference population the engine uses:
`feature.attributes?.TOTALPOP || 0`, as a rational. -/
def popQ (c : Candidate) : ℚ :=
  (jsOrZero c.totalpop).toQ

/-! ## Ring Buffer Builder -/

/-- The fragment of `geometryEngine` the ring builder consumes:
`buffer(center, d, "meters")` (the center point is fixed for one run,
so only the distance varies) and `difference(a, b)`.  Both may return
null for degenerate input, modelled by `Option`; the arguments of
`difference` are possibly-null as in the source, where the nullable
`outerBuffer` is passed through unchecked. -/
structure GeomProvider (G : Type) where
  buffer : ℚ → Option G
  difference : Option G → Option G → Option G

/-- The ring geometry computed at loop index `i` of `processBuffer` in
`src/buffer-dasymetric/src/runtime/widget.tsx` (lines 155 to 159):

    const outerBuffer = geometryEngine.buffer(projectedPoint, METERS[index], "meters");
    const innerBuffer = index > 0 ? geometryEngine.buffer(projectedPoint, METERS[index - 1], "meters") : null;
    const ringBuffer = innerBuffer ? geometryEngine.difference(outerBuffer, innerBuffer) : outerBuffer;

Note the conditional tests the truthiness of `innerBuffer`, so when
`index > 0` but the inner buffer comes back null, the ring falls back
to the outer buffer alone, exactly as in the source. -/
def ringAt {G : Type} (gp : GeomProvider G) (ds : List ℚ) (i : ℕ) : Option G :=
  match (if 0 < i then gp.buffer (ds.getD (i - 1) 0) else none : Option G) with
  | some inn => gp.difference (gp.buffer (ds.getD i 0)) (some inn)
  | none => gp.buffer (ds.getD i 0)

/-- The ring list built by the loop of
`src/buffer-dasymetric/src/runtime/widget.tsx` (lines 155 to 159),
`for (let index = 0; index < METERS.length; index++)` with
`if (!ringBuffer) continue;`: each surviving index contributes its
ring geometry, null rings are dropped and the loop continues. -/
def buildRings {G : Type} (gp : GeomProvider G) (ds : List ℚ) : List (ℕ × G) :=
  (List.range ds.length).filterMap fun i => (ringAt gp ds i).map fun g => (i, g)

/-- The ring geometry computed at loop index `i` of `processBuffer` in
`src/unnamed/part_000` (lines 93 to 105):

    const bufferOuter = geometryEngine.buffer(projectedPoint, METERS[index], "meters");
    const bufferInner = geometryEngine.buffer(projectedPoint, METERS[index - 1], "meters");
    if (!bufferOuter || !bufferInner) continue;
    const ringBuffer = geometryEngine.difference(bufferOuter, bufferInner);
    if (!ringBuffer) continue;
-/
def ringAtPart000 {G : Type} (gp : GeomProvider G) (ds : List ℚ) (i : ℕ) : Option G :=
  match gp.buffer (ds.getD i 0), gp.buffer (ds.getD (i - 1) 0) with
  | some out, some inn => gp.difference (some out) (some inn)
  | _, _ => none

/-- The ring list built by the loop of `src/unnamed/part_000`
(lines 93 to 105): `for (let index = 1; index < METERS.length; index++)`
— the loop starts at index 1, so only consecutive-pair differences are
produced and no plain disc for the innermost distance. -/
def buildRingsPart000 {G : Type} (gp : GeomProvider G) (ds : List ℚ) : List (ℕ × G) :=
  ((List.range ds.length).drop 1).filterMap fun i =>
    (ringAtPart000 gp ds i).map fun g => (i, g)

/-- Free (syntactic) geometry terms, used to instantiate the abstract
provider on concrete inputs: `disc d` stands for the buffer of radius
`d` around the site, `ringShape a b` for `difference(a, b)`. -/
inductive Geom where
  | disc (d : ℚ) : Geom
  | ringShape (a b : Geom) : Geom
deriving DecidableEq

/-- The free geometry provider: every buffer succeeds and every
difference yields the corresponding syntactic term (null difference
arguments give null, as the engine does for missing geometry). -/
def freeGP : GeomProvider Geom where
  buffer d := some (.disc d)
  difference a b :=
    match a, b with
    | some x, some y => some (.ringShape x y)
    | _, _ => none

/-! ## Summary aggregation -/

/-- A ring label.  The source builds a template string from
`MILES[index - 1] || 0` and `MILES[index]`; for a strictly
increasing distance list the string is determined by (and determines)
the pair (inner distance, outer distance), so the label is modelled by
that pair. -/
abbrev Label := ℚ × ℚ

/-- The label of ring `i` in
`src/buffer-dasymetric/src/runtime/widget.tsx` line 183:
`BUFFER_DISTANCES_MILES[index - 1] || 0` is the previous distance, or 0
at index 0 (indexing at -1 yields `undefined`, and `undefined || 0` is
0). -/
def mkLabel (ds : List ℚ) (i : ℕ) : Label :=
  (if i = 0 then 0 else ds.getD (i - 1) 0, ds.getD i 0)

/-- The update `summaryStats[ringLabel] = (summaryStats[ringLabel] || 0) + adjPop`
on the summary map, modelled as an insertion-ordered association list
exactly as a JS object with string keys behaves: an existing key is
updated in place, a new key is appended. -/
def addTo : List (Label × ℚ) → Label → ℚ → List (Label × ℚ)
  | [], l, v => [(l, v)]
  | (k, w) :: rest, l, v =>
    if k = l then (k, w + v) :: rest else (k, w) :: addTo rest l v

/-- Lookup in the summary map with default 0 (`summaryStats[l] || 0`
on the first occurrence of the key). -/
def getD : List (Label × ℚ) → Label → ℚ
  | [], _ => 0
  | (k, w) :: rest, l => if k = l then w else getD rest l

/-- The sum of all values displayed from the summary map. -/
def sumValues (m : List (Label × ℚ)) : ℚ :=
  (m.map Prod.snd).sum

/-- The data of one processed ring: its label and the candidate
features returned by the census query against the ring geometry. -/
structure RingData where
  label : Label
  candidates : List Candidate
deriving DecidableEq

/-- The adjusted populations of the accepted candidates of a candidate
list, in order (skipped candidates contribute nothing).  The values are
read off as rationals; the engine never emits NaN (see the lemma
`processCandidate_shape` below), so `JSNum.toQ` is exact here. -/
def popsOf (cs : List Candidate) : List ℚ :=
  cs.filterMap fun c => (processCandidate c).map JSNum.toQ

/-- The adjusted populations of the accepted candidates of a ring. -/
def acceptedPops (r : RingData) : List ℚ :=
  popsOf r.candidates

/-- Per §4.2 of the design, the total population of one ring is the sum
of `adjPop` over the accepted candidates of that ring. -/
def ringTotal (r : RingData) : ℚ :=
  (acceptedPops r).sum

/-- One candidate folded into the summary map: a skipped candidate
leaves the map unchanged, an accepted one adds its `adjPop` at the
label of its ring. -/
def foldCandidate (l : Label) (m : List (Label × ℚ)) (c : Candidate) :
    List (Label × ℚ) :=
  match processCandidate c with
  | none => m
  | some v => addTo m l v.toQ

/-- One ring folded into the summary map, candidate by candidate. -/
def foldRingInto (m : List (Label × ℚ)) (r : RingData) : List (Label × ℚ) :=
  r.candidates.foldl (foldCandidate r.label) m

/-- The summary map produced by the loop of
`src/buffer-dasymetric/src/runtime/widget.tsx` (lines 151 to 206):
starting from an empty object, each accepted candidate of each ring folds its
`adjPop` into the entry of the label of its ring
(`summaryStats[ringLabel] = (summaryStats[ringLabel] || 0) + adjPop`). -/
def buildSummary (rings : List RingData) : List (Label × ℚ) :=
  rings.foldl foldRingInto []

/-- A per-ring report (§3 of the design): label and total population. -/
structure RingReport where
  label : Label
  totalPopulation : ℚ

/-- The ring report of one processed ring. -/
def mkRingReport (r : RingData) : RingReport :=
  ⟨r.label, ringTotal r⟩

/-- Modelled from the spec: the Summary Aggregator (§4.3,
`grandTotalPopulation = Σ RingReport.totalPopulation`) is not
implemented under `src/` — the widgets only keep the per-label summary
map — so the grand total of the SiteReport is taken from the design
text as the sum of the per-ring totals. -/
def grandTotalPopulation (reports : List RingReport) : ℚ :=
  (reports.map RingReport.totalPopulation).sum

/-- One run of the whole pipeline on the rings that survive the
builder: ring `i` is labelled `mkLabel ds i` and holds the candidates
`query i` returned by the census layer for its geometry. -/
def pipelineRings {G : Type} (gp : GeomProvider G) (ds : List ℚ)
    (query : ℕ → List Candidate) : List RingData :=
  (buildRings gp ds).map fun p => ⟨mkLabel ds p.1, query p.1⟩

/-! ## Input validation and the order of geometry work

The validation claims are about what happens before any geometry call,
so the site computation is modelled together with the trace of calls it
issues to the projection engine, the geometry engine and the census
data source. -/

/-- One externally visible geometry / data-source operation. -/
inductive GeoOp where
  | projLoad : GeoOp
  | project : GeoOp
  | buffer (d : ℚ) : GeoOp
  | query (ringIndex : ℕ) : GeoOp
deriving DecidableEq

/-- The coordinate form state as `processPoint` of
`src/buffer-dasymetric/src/runtime/widget.tsx` (lines 46 to 60) reads
it: the three emptiness tests `!latitude.trim()` etc., and the results
of `parseFloat(latitude)` / `parseFloat(longitude)` where `none`
models NaN (the string does not parse to a number). -/
structure CoordInput where
  latEmpty : Bool
  lonEmpty : Bool
  nameEmpty : Bool
  lat : Option ℚ
  lon : Option ℚ
deriving DecidableEq

/-- The synchronous validation of `processPoint`
(`src/buffer-dasymetric/src/runtime/widget.tsx` lines 49 to 60; the
same checks appear in `handleCoordinateSubmit` of
`src/unnamed/part_002` lines 206 to 220):

    if (!latitude.trim() || !longitude.trim() || !siteName.trim()) ...error, return...
    const lat = parseFloat(latitude); const lon = parseFloat(longitude);
    if (isNaN(lat) || isNaN(lon) || lat < -90 || lat > 90 || lon < -180 || lon > 180) ...error, return...
-/
def validateInput (inp : CoordInput) : Except String (ℚ × ℚ) :=
  if inp.latEmpty || inp.lonEmpty || inp.nameEmpty then
    .error "Enter Latitude, Longitude, and Site Name."
  else
    match inp.lat, inp.lon with
    | some la, some lo =>
      if la < -90 ∨ la > 90 ∨ lo < -180 ∨ lo > 180 then
        .error "Invalid coordinates."
      else
        .ok (la, lo)
    | _, _ => .error "Invalid coordinates."

/-- The geometry-work trace of `processBuffer` in
`src/buffer-dasymetric/src/runtime/widget.tsx` (lines 81 to 222): the
projection engine is loaded and the point projected, then for every
index the outer (and for positive indices the inner) buffer is
computed, and each index whose ring geometry is non-null issues one
census query. -/
def processBufferTrace {G : Type} (gp : GeomProvider G) (ds : List ℚ) : List GeoOp :=
  [GeoOp.projLoad, GeoOp.project] ++
    (List.range ds.length).flatMap fun i =>
      (GeoOp.buffer (ds.getD i 0) ::
        (if 0 < i then [GeoOp.buffer (ds.getD (i - 1) 0)] else [])) ++
        (match ringAt gp ds i with
         | some _ => [GeoOp.query i]
         | none => [])

/-- The site computation as triggered by the Process button
(`processPoint` then `processBuffer` in
`src/buffer-dasymetric/src/runtime/widget.tsx`): validation runs first
and on failure sets a single error message and returns — before the
point is constructed and before `processBuffer` issues any geometry
work.  The result is paired with the trace of geometry operations
performed. -/
def runProcessPoint {G : Type} (gp : GeomProvider G) (ds : List ℚ)
    (inp : CoordInput) : Except String Unit × List GeoOp :=
  match validateInput inp with
  | .error e => (.error e, [])
  | .ok _ => (.ok (), processBufferTrace gp ds)

/-- The conversion constant of the sources: 1 mile = 1609.34 meters. -/
def milesToMeters : ℚ := 160934 / 100

/-- Model of `processPoint` of `src/unnamed/part_002` (lines 60 to
200), with its trace of geometry work.  Control flow, in source order: map-view
check, site-name check, census-layer lookup (none of which touch
geometry), then inside the try block `projection.load()` and
`projection.project(point, mapSR)` (which can throw, caught and
reported), then one `geometryEngine.buffer` call per configured
distance, keeping the non-null results; if no buffer survives, the
thrown error is caught and surfaced as a processing failure; otherwise
one census query against the largest buffer is issued.  Note line 71:
`props.config?.bufferDistances || [defaults]` — an empty array is
truthy in JS, so an empty `bufferDistances` list is NOT replaced by the
defaults and reaches the buffering stage. -/
def runPart002 {G : Type} (gp : GeomProvider G)
    (hasMapView hasSiteName hasCensusLayer projectOk : Bool)
    (bufferDistances : List ℚ) : Except String Unit × List GeoOp :=
  if !hasMapView then (.error "Map view not loaded. Add a Map widget.", [])
  else if !hasSiteName then (.error "Please enter a site name.", [])
  else if !hasCensusLayer then
    (.error "Census layer (CensusBlocks2010) not found in the map.", [])
  else
    let tr0 := [GeoOp.projLoad, GeoOp.project]
    if !projectOk then
      (.error "Failed to project point to map spatial reference.", tr0)
    else
      let bufferOps := bufferDistances.map fun d => GeoOp.buffer (d * milesToMeters)
      let buffers := bufferDistances.filterMap fun d => gp.buffer (d * milesToMeters)
      if buffers.length = 0 then
        (.error "Error processing data: No valid buffers were created.", tr0 ++ bufferOps)
      else
        (.ok (), tr0 ++ bufferOps ++ [GeoOp.query 0])

/-! ## The summary fold of src/unnamed/part_000

The iteration `src/unnamed/part_000` (lines 89 to 133) pre-seeds its
summary object with fixed keys and accumulates with
`summaryStats[label] += adjPop`, where `label` is computed by a
template literal.  A `+=` on a key that is absent from the object reads
`undefined` and stores NaN.  The definitions below embed that fold
over string keys with JS addition semantics. -/

/-- JS addition `a + b` on numbers; NaN operands give NaN. -/
def jsAdd : JSNum → JSNum → JSNum
  | .num a, .num b => .num (a + b)
  | _, _ => .nan

/-- JS addition whose left operand is a property read that may be
`undefined`: `undefined + v` is NaN. -/
def jsAddVal : JSVal → JSNum → JSNum
  | none, _ => .nan
  | some x, v => jsAdd x v

/-- JS object property read `m[k]`: `undefined` when the key is absent. -/
def lookupKey : List (String × JSNum) → String → Option JSNum
  | [], _ => none
  | (k0, w) :: rest, k => if k0 = k then some w else lookupKey rest k

/-- JS object property write `m[k] = v`: an existing key is updated in
place, a new key is appended in insertion order. -/
def setKey : List (String × JSNum) → String → JSNum → List (String × JSNum)
  | [], k, v => [(k, v)]
  | (k0, w) :: rest, k, v =>
    if k0 = k then (k0, v) :: rest else (k0, w) :: setKey rest k v

/-- JS compound assignment `m[k] += v`. -/
def addAssign (m : List (String × JSNum)) (k : String) (v : JSNum) :
    List (String × JSNum) :=
  setKey m k (jsAddVal (lookupKey m k) v)

/-- The distance list of `src/unnamed/part_000` line 14, in miles. -/
def part000Miles : List ℚ := [1/4, 1/2, 1, 2, 3, 4, 5]

/-- The buffer distances of `src/unnamed/part_000` line 15, in meters. -/
def part000Meters : List ℚ := part000Miles.map fun d => d * milesToMeters

/-- The label strings the template literal of `src/unnamed/part_000`
line 133 produces for loop indices 1 to 6 (JS renders the numbers 0.25
and 0.5 with exactly those decimal digits); position i - 1 of this list
is the label of loop index i. -/
def part000Labels : List String :=
  ["0.25-0.5 miles", "0.5-1 miles", "1-2 miles", "2-3 miles",
   "3-4 miles", "4-5 miles"]

/-- The accumulation key of loop index `i` in `src/unnamed/part_000`
line 133. -/
def part000Label (i : ℕ) : String :=
  part000Labels.getD (i - 1) ""

/-- The pre-seeded summary object of `src/unnamed/part_000` lines 89 to
91.  Note the first two keys, with the fraction glyphs and the singular
"mile", differ from every key `part000Label` can produce. -/
def part000InitialSummary : List (String × JSNum) :=
  [("¼-½ mile", .num 0), ("½-1 mile", .num 0), ("1-2 miles", .num 0),
   ("2-3 miles", .num 0), ("3-4 miles", .num 0), ("4-5 miles", .num 0)]

/-- Per-candidate step of `processBuffer` in `src/unnamed/part_000`
(lines 115 to 146).  Returns `none` when the candidate is skipped,
otherwise `some adjPop`:

    const clippedFeature = geometryEngine.intersect(feature.geometry, ringBuffer);
    if (!clippedFeature) return;
    let clippedAcres = geometryEngine.geodesicArea(clippedFeature, "acres");
    let originalAcres = feature.attributes.ACRES;
    if (isNaN(clippedAcres) || clippedAcres <= 0 || !originalAcres || originalAcres <= 0) return;
    const ratio = clippedAcres / originalAcres;
    const adjPop = Math.round(ratio * feature.attributes.TOTALPOP);

Unlike the principal engine, TOTALPOP is read without a `|| 0` guard. -/
def processCandidatePart000 (c : Candidate) : Option JSNum :=
  match c.clipped with
  | none => none
  | some ca =>
    if ca.isNaN || ca.leZero || jsFalsy c.acres || jsLeZero c.acres then none
    else some (jsRound (jsMul (jsDiv ca (jsToNum c.acres)) (jsToNum c.totalpop)))

/-- The summary object produced by one run of the loop of
`src/unnamed/part_000` (lines 89 to 147): for each loop index from 1 up,
if the ring geometry survives, every accepted candidate of that ring is
folded in with `summaryStats[label] += adjPop` at the key of
`part000Label`. -/
def part000Summary {G : Type} (gp : GeomProvider G)
    (queryResults : ℕ → List Candidate) : List (String × JSNum) :=
  ((List.range part000Meters.length).drop 1).foldl
    (fun m i =>
      match ringAtPart000 gp part000Meters i with
      | none => m
      | some _ =>
        (queryResults i).foldl
          (fun m c =>
            match processCandidatePart000 c with
            | none => m
            | some v => addAssign m (part000Label i) v)
          m)
    part000InitialSummary

/-- A census-query function with a single accepted candidate (half its
100 acres clipped, population 1000) in the 0.25 to 0.5 mile ring and no
candidates elsewhere. -/
def part000QueryOneHit : ℕ → List Candidate := fun i =>
  if i = 1 then [⟨some (.num 50), some (.num 100), some (.num 1000)⟩] else []

/-- The JS sum of the values of a summary object. -/
def sumValuesJS (m : List (String × JSNum)) : JSNum :=
  m.foldl (fun acc kv => jsAdd acc kv.2) (.num 0)

/-! ## Helper lemmas -/

/-- If the ACRES guard of the engine lets a candidate through, the
ACRES attribute is a strictly positive number. -/
lemma acres_shape (c : Candidate)
    (h : (jsFalsy c.acres || jsLeZero c.acres || jsIsNaN c.acres) = false) :
    ∃ q : ℚ, c.acres = some (JSNum.num q) ∧ 0 < q := by
  cases hac : c.acres with
  | none => rw [hac] at h; simp [jsFalsy] at h
  | some x =>
    cases x with
    | nan => rw [hac] at h; simp [jsFalsy] at h
    | num q =>
      refine ⟨q, rfl, ?_⟩
      rw [hac] at h
      simp only [jsFalsy, jsLeZero, jsIsNaN, Bool.or_eq_false_iff,
        decide_eq_false_iff_not] at h
      exact lt_of_not_le h.1.2

/-- The expression `x || 0` always yields a finite number, whose value
is `toQ` of itself. -/
lemma jsOrZero_eq_num (t : JSVal) : jsOrZero t = JSNum.num (jsOrZero t).toQ := by
  cases t with
  | none => rfl
  | some x =>
    cases x with
    | nan => rfl
    | num q =>
      by_cases hq : q = 0 <;> simp [jsOrZero, JSNum.toQ, hq]

/-- Characterization of an accepted candidate of the engine of
`src/buffer-dasymetric/src/runtime/widget.tsx`: the candidate has a
non-null clipped geometry and a strictly positive ACRES attribute, and
the emitted value is exactly `Math.round(areaRatio * pop)` with
round-half-up semantics. -/
lemma processCandidate_shape (c : Candidate) (v : JSNum)
    (h : processCandidate c = some v) :
    (∃ ca, c.clipped = some ca)
    ∧ (∃ q, c.acres = some (JSNum.num q) ∧ 0 < q)
    ∧ v = JSNum.num ((⌊areaRatio c * popQ c + 1 / 2⌋ : ℤ) : ℚ) := by
  unfold processCandidate at h
  cases hc : c.clipped with
  | none => rw [hc] at h; cases h
  | some ca =>
    rw [hc] at h
    dsimp only at h
    by_cases hg : (jsFalsy c.acres || jsLeZero c.acres || jsIsNaN c.acres) = true
    · rw [if_pos hg] at h; cases h
    · have hg' : (jsFalsy c.acres || jsLeZero c.acres || jsIsNaN c.acres) = false :=
        Bool.eq_false_iff.mpr hg
      rw [if_neg hg] at h
      obtain ⟨q, hq, hq0⟩ := acres_shape c hg'
      refine ⟨⟨ca, rfl⟩, ⟨q, hq, hq0⟩, ?_⟩
      have hpop : jsOrZero c.totalpop = JSNum.num (popQ c) := jsOrZero_eq_num c.totalpop
      have hratio :
          (if ca.gtZero then jsDiv ca (jsToNum c.acres) else JSNum.num 0)
            = JSNum.num (areaRatio c) := by
        cases ca with
        | nan => simp [JSNum.gtZero, areaRatio, hc]
        | num a =>
          by_cases ha : 0 < a
          · have hq0' : q ≠ 0 := ne_of_gt hq0
            simp [JSNum.gtZero, ha, hq, jsToNum, jsDiv, hq0', areaRatio, hc, acresQ]
          · simp [JSNum.gtZero, ha, areaRatio, hc]
      rw [hratio, hpop] at h
      simpa [jsMul, jsRound] using h.symm

/-- A candidate whose ACRES attribute is missing, NaN or nonpositive is
rejected by the guard of the engine. -/
lemma guard_true_of_invalid_acres (c : Candidate)
    (h : c.acres = none ∨ c.acres = some JSNum.nan
       ∨ ∃ q, c.acres = some (JSNum.num q) ∧ q ≤ 0) :
    (jsFalsy c.acres || jsLeZero c.acres || jsIsNaN c.acres) = true := by
  rcases h with h | h | ⟨q, h, hq⟩ <;> rw [h]
  · rfl
  · rfl
  · by_cases h0 : q = 0
    · simp [jsFalsy, h0]
    · simp [jsFalsy, jsLeZero, h0, hq]

/-- A candidate rejected by the guard is skipped. -/
lemma processCandidate_eq_none_of_guard (c : Candidate)
    (h : (jsFalsy c.acres || jsLeZero c.acres || jsIsNaN c.acres) = true) :
    processCandidate c = none := by
  unfold processCandidate
  cases c.clipped with
  | none => rfl
  | some ca => dsimp only; rw [if_pos h]

/-- Removing a skipped candidate from a candidate list does not change
the accepted populations. -/
lemma popsOf_skip (c : Candidate) (pre post : List Candidate)
    (h : processCandidate c = none) :
    popsOf (pre ++ c :: post) = popsOf (pre ++ post) := by
  simp [popsOf, List.filterMap_append, List.filterMap_cons, h]

/-- Folding the summary map with one candidate list adds exactly the
sum of the accepted populations of that list to the sum of the map
values. -/
lemma sumValues_addTo (m : List (Label × ℚ)) (l : Label) (v : ℚ) :
    sumValues (addTo m l v) = sumValues m + v := by
  induction m with
  | nil => simp [addTo, sumValues]
  | cons kv rest ih =>
    obtain ⟨k, w⟩ := kv
    by_cases hk : k = l
    · simp [addTo, hk, sumValues]
      ring
    · simp [addTo, hk, sumValues] at *
      rw [ih]
      ring

/-- Lookup after an update: the updated key gains `v`, the others are
unchanged. -/
lemma getD_addTo (m : List (Label × ℚ)) (l k : Label) (v : ℚ) :
    getD (addTo m l v) k = getD m k + (if l = k then v else 0) := by
  induction m with
  | nil =>
    by_cases hk : l = k <;> simp [addTo, getD, hk]
  | cons kv rest ih =>
    obtain ⟨k0, w⟩ := kv
    by_cases h0 : k0 = l
    · subst h0
      by_cases hk : k0 = k
      · subst hk; simp [addTo, getD]
      · have : ¬(k0 = k) := hk
        simp [addTo, getD, this, hk]
    · by_cases hk : k0 = k
      · subst hk
        have hlk : ¬(l = k0) := fun he => h0 he.symm
        simp [addTo, getD, h0, hlk]
      · simp [addTo, getD, h0, hk, ih]

/-- Folding one candidate list into the summary map adds the sum of its
accepted populations to the total of the map values. -/
lemma sumValues_foldl_candidates (l : Label) (cs : List Candidate)
    (m : List (Label × ℚ)) :
    sumValues (cs.foldl (foldCandidate l) m) = sumValues m + (popsOf cs).sum := by
  induction cs generalizing m with
  | nil => simp [popsOf]
  | cons c rest ih =>
    rw [List.foldl_cons, ih]
    cases hres : processCandidate c with
    | none => simp [foldCandidate, hres, popsOf, List.filterMap_cons]
    | some v =>
      simp [foldCandidate, hres, popsOf, List.filterMap_cons, sumValues_addTo]
      ring

/-- Folding a list of rings into the summary map adds the sum of the
ring totals to the total of the map values. -/
lemma sumValues_foldl_rings (rings : List RingData) (m : List (Label × ℚ)) :
    sumValues (rings.foldl foldRingInto m)
      = sumValues m + (rings.map ringTotal).sum := by
  induction rings generalizing m with
  | nil => simp
  | cons r rest ih =>
    rw [List.foldl_cons, ih]
    simp [foldRingInto, sumValues_foldl_candidates, ringTotal, acceptedPops]
    ring

/-- Per-label effect of folding one candidate list. -/
lemma getD_foldl_candidates (l k : Label) (cs : List Candidate)
    (m : List (Label × ℚ)) :
    getD (cs.foldl (foldCandidate l) m) k
      = getD m k + (if l = k then (popsOf cs).sum else 0) := by
  induction cs generalizing m with
  | nil => simp [popsOf]
  | cons c rest ih =>
    rw [List.foldl_cons, ih]
    cases hres : processCandidate c with
    | none => simp [foldCandidate, hres, popsOf, List.filterMap_cons]
    | some v =>
      by_cases hlk : l = k
      · simp [foldCandidate, hres, popsOf, List.filterMap_cons, getD_addTo, hlk]
        ring
      · simp [foldCandidate, hres, popsOf, List.filterMap_cons, getD_addTo, hlk]

/-- Per-label effect of folding a list of rings: each label collects
exactly the ring totals of the rings bearing it. -/
lemma getD_foldl_rings (k : Label) (rings : List RingData)
    (m : List (Label × ℚ)) :
    getD (rings.foldl foldRingInto m) k
      = getD m k + ((rings.filter fun r => r.label = k).map ringTotal).sum := by
  induction rings generalizing m with
  | nil => simp
  | cons r rest ih =>
    rw [List.foldl_cons, ih]
    by_cases hlk : r.label = k
    · simp [foldRingInto, getD_foldl_candidates, hlk, ringTotal, acceptedPops,
        List.filter_cons]
      ring
    · simp [foldRingInto, getD_foldl_candidates, hlk, List.filter_cons]

/-! ## Claim theorems -/

/-- C1: the claim states that every record of the Areal Interpolation
Engine clamps `clippedArea` to `referenceArea`, so `areaRatio ≤ 1` and
`reallocatedPopulation ≤ referencePopulation`.  The engine of
`src/buffer-dasymetric/src/runtime/widget.tsx` (lines 174 to 179)
applies no clamp: at clipped area 200, reference area 100 and
population 1000 it forms `areaRatio = 2` and emits 2000 > 1000.  The
sibling iteration `src/unnamed/part_004` contains the clamp (marked
there as a fix) and emits 1000 on the same input, which is what the
claim and the design text require. -/
theorem c1_missing_clamp_evaluation :
    processCandidate ⟨some (.num 200), some (.num 100), some (.num 1000)⟩
      = some (.num 2000)
    ∧ areaRatio ⟨some (.num 200), some (.num 100), some (.num 1000)⟩ = 2
    ∧ ¬((2000 : ℚ) ≤ 1000)
    ∧ processCandidatePart004 ⟨some (.num 200), some (.num 100), some (.num 1000)⟩
      = some (.num 1000) := by
  refine ⟨?_, ?_, ?_, ?_⟩
  · with_unfolding_all decide
  · with_unfolding_all decide
  · decide
  · with_unfolding_all decide

/-- C5: whatever the area function returned for the clipped geometry
(NaN and nonpositive values included) and whatever the attributes are,
an accepted candidate of the engine of
`src/buffer-dasymetric/src/runtime/widget.tsx` never emits NaN as its
reallocated population, and a NaN clipped area is mapped through a zero
ratio to the value 0. -/
theorem c5_no_nan_reaches_population (c : Candidate) (v : JSNum)
    (h : processCandidate c = some v) :
    v.isNaN = false ∧ (c.clipped = some JSNum.nan → v = JSNum.num 0) := by
  obtain ⟨-, -, hv⟩ := processCandidate_shape c v h
  subst hv
  refine ⟨rfl, fun hnan => ?_⟩
  have hr : areaRatio c = 0 := by simp [areaRatio, hnan]
  rw [hr, zero_mul, zero_add]
  norm_num

/-- Witness for C5 at a concrete candidate with a NaN clipped area. -/
theorem c5_witness :
    processCandidate ⟨some JSNum.nan, some (JSNum.num 100), some (JSNum.num 77)⟩
      = some (JSNum.num 0)
    ∧ (JSNum.num 0).isNaN = false := by
  have h : processCandidate ⟨some JSNum.nan, some (JSNum.num 100), some (JSNum.num 77)⟩
      = some (JSNum.num 0) := by with_unfolding_all decide
  exact ⟨h, (c5_no_nan_reaches_population _ _ h).1⟩

/-- C6: the value an accepted candidate contributes is exactly
`Math.round(areaRatio * referencePopulation)` with round-half-up
semantics (`⌊x + 1/2⌋`), and under the data-model invariant that the
reference population is nonnegative the reported value is a nonnegative
integer. -/
theorem c6_round_half_up (c : Candidate) (v : JSNum)
    (h : processCandidate c = some v) (hpop : 0 ≤ popQ c) :
    v = JSNum.num ((⌊areaRatio c * popQ c + 1 / 2⌋ : ℤ) : ℚ)
    ∧ 0 ≤ ⌊areaRatio c * popQ c + 1 / 2⌋ := by
  obtain ⟨-, ⟨q, hq, hq0⟩, hv⟩ := processCandidate_shape c v h
  refine ⟨hv, ?_⟩
  have hr : 0 ≤ areaRatio c := by
    unfold areaRatio
    cases hc : c.clipped with
    | none => simp
    | some ca =>
      cases ca with
      | nan => simp
      | num a =>
        by_cases ha : 0 < a
        · have : acresQ c = q := by simp [acresQ, hq]
          rw [this]
          simp [ha, le_of_lt (div_pos ha hq0)]
        · simp [ha]
  have hx : (0 : ℚ) ≤ areaRatio c * popQ c + 1 / 2 := by
    have := mul_nonneg hr hpop
    linarith
  exact Int.le_floor.mpr (by exact_mod_cast hx)

/-- Witness for C6 at clipped area 50, reference area 100, population
1000 (the emitted value is 500 = round(0.5 * 1000)). -/
theorem c6_witness :
    (0 : ℚ) ≤ popQ ⟨some (.num 50), some (.num 100), some (.num 1000)⟩
    ∧ JSNum.num 500
      = JSNum.num ((⌊areaRatio ⟨some (.num 50), some (.num 100), some (.num 1000)⟩
          * popQ ⟨some (.num 50), some (.num 100), some (.num 1000)⟩ + 1 / 2⌋ : ℤ) : ℚ) := by
  have h : processCandidate ⟨some (.num 50), some (.num 100), some (.num 1000)⟩
      = some (.num 500) := by with_unfolding_all decide
  have hp : (0 : ℚ) ≤ popQ ⟨some (.num 50), some (.num 100), some (.num 1000)⟩ := by
    with_unfolding_all decide
  exact ⟨hp, (c6_round_half_up _ _ h hp).1⟩

/-- C7: a candidate whose reference-area attribute is missing,
nonpositive or NaN is skipped — it contributes to no ring total, and
the remaining candidates of the ring are processed unchanged (the
model is total, so no exception can be raised). -/
theorem c7_invalid_reference_area_skipped (c : Candidate) (l : Label)
    (pre post : List Candidate)
    (h : c.acres = none ∨ c.acres = some JSNum.nan
       ∨ ∃ q, c.acres = some (JSNum.num q) ∧ q ≤ 0) :
    processCandidate c = none
    ∧ ringTotal ⟨l, pre ++ c :: post⟩ = ringTotal ⟨l, pre ++ post⟩ := by
  have hnone := processCandidate_eq_none_of_guard c (guard_true_of_invalid_acres c h)
  refine ⟨hnone, ?_⟩
  unfold ringTotal acceptedPops
  rw [popsOf_skip c pre post hnone]

/-- Witness for C7 at a candidate with reference area 0. -/
theorem c7_witness :
    processCandidate ⟨some (.num 50), some (.num 0), some (.num 77)⟩ = none
    ∧ ringTotal ⟨(0, 1), [⟨some (.num 50), some (.num 0), some (.num 77)⟩]⟩
      = ringTotal ⟨(0, 1), []⟩ :=
  c7_invalid_reference_area_skipped ⟨some (.num 50), some (.num 0), some (.num 77)⟩
    (0, 1) [] [] (Or.inr (Or.inr ⟨0, rfl, le_refl 0⟩))

/-- C10: a candidate whose TOTALPOP attribute is missing is still
processed (`TOTALPOP || 0` makes the population 0): if accepted it
emits exactly 0 — never NaN — and the total of its ring is the same as
if the candidate were absent. -/
theorem c10_missing_population_contributes_zero (c : Candidate) (l : Label)
    (pre post : List Candidate) (h : c.totalpop = none) :
    (∀ v, processCandidate c = some v → v = JSNum.num 0)
    ∧ ringTotal ⟨l, pre ++ c :: post⟩ = ringTotal ⟨l, pre ++ post⟩ := by
  have hzero : ∀ v, processCandidate c = some v → v = JSNum.num 0 := by
    intro v hv
    obtain ⟨-, -, hveq⟩ := processCandidate_shape c v hv
    have hp : popQ c = 0 := by simp [popQ, h, jsOrZero, JSNum.toQ]
    rw [hveq, hp, mul_zero, zero_add]
    norm_num
  refine ⟨hzero, ?_⟩
  cases hres : processCandidate c with
  | none =>
    unfold ringTotal acceptedPops
    rw [popsOf_skip c pre post hres]
  | some v =>
    have hv0 : v = JSNum.num 0 := hzero v hres
    subst hv0
    simp [ringTotal, acceptedPops, popsOf, List.filterMap_append,
      List.filterMap_cons, hres, JSNum.toQ]

/-- Witness for C10 at a candidate with no TOTALPOP attribute. -/
theorem c10_witness :
    processCandidate ⟨some (.num 50), some (.num 100), none⟩ = some (JSNum.num 0)
    ∧ ringTotal ⟨(0, 1), [⟨some (.num 50), some (.num 100), none⟩]⟩
      = ringTotal ⟨(0, 1), []⟩ := by
  have hpc : processCandidate ⟨some (.num 50), some (.num 100), none⟩
      = some (JSNum.num 0) := by with_unfolding_all decide
  exact ⟨hpc,
    (c10_missing_population_contributes_zero ⟨some (.num 50), some (.num 100), none⟩
      (0, 1) [] [] rfl).2⟩

/-- C2 counterexample: the summary fold of `src/unnamed/part_000`
(lines 89 to 133, cited by the claim) pre-seeds the map with the keys
"¼-½ mile" and "½-1 mile", but the accumulation key computed at line
133 for those rings is "0.25-0.5 miles" / "0.5-1 miles".  The `+=` on
the absent key reads `undefined` and stores NaN.  On a run with a
single accepted candidate (reallocated population 500) in the 0.25 to
0.5 mile ring, the entry of the label of that ring is NaN rather than
500, and the JS sum of the map values is NaN rather than the grand
total 500: the accepted contribution is lost by something other than
the explicit skip rules, so the per-label accounting and the
grand-total equality asserted by the claim fail on this cited engine. -/
theorem c2_part000_label_mismatch_nan :
    processCandidatePart000 ⟨some (.num 50), some (.num 100), some (.num 1000)⟩
      = some (.num 500)
    ∧ part000Summary freeGP part000QueryOneHit
      = part000InitialSummary ++ [("0.25-0.5 miles", JSNum.nan)]
    ∧ lookupKey (part000Summary freeGP part000QueryOneHit) (part000Label 1)
        = some JSNum.nan
    ∧ lookupKey (part000Summary freeGP part000QueryOneHit) (part000Label 1)
        ≠ some (JSNum.num 500)
    ∧ sumValuesJS (part000Summary freeGP part000QueryOneHit) = JSNum.nan := by
  refine ⟨?_, ?_, ?_, ?_, ?_⟩ <;> with_unfolding_all decide

/-- C2 (amended): sum consistency of one run of the pipeline of
`src/buffer-dasymetric/src/runtime/widget.tsx`, whose summary fold
starts from the empty object and accumulates with
`(summaryStats[ringLabel] || 0) + adjPop`, so no key can be missing at
the accumulation.  The grand total of the site report (spec-modelled
aggregator over the per-ring reports) equals the sum of the values of
the summary map built by the per-label fold, equals the sum of the
reallocated populations of all accepted candidates over all rings
(each counted exactly once), and each label of the summary map
accounts for exactly the accepted contributions of the rings bearing
it.  The part_000 iteration does not satisfy this: its pre-seeded keys
never match its computed labels, as the counterexample shows. -/
theorem c2_sum_consistency {G : Type} (gp : GeomProvider G) (ds : List ℚ)
    (query : ℕ → List Candidate) :
    grandTotalPopulation ((pipelineRings gp ds query).map mkRingReport)
      = sumValues (buildSummary (pipelineRings gp ds query))
    ∧ sumValues (buildSummary (pipelineRings gp ds query))
      = (((pipelineRings gp ds query).map acceptedPops).flatten).sum
    ∧ ∀ l : Label,
        getD (buildSummary (pipelineRings gp ds query)) l
          = (((pipelineRings gp ds query).filter fun r => r.label = l).map
              ringTotal).sum := by
  have h1 : grandTotalPopulation ((pipelineRings gp ds query).map mkRingReport)
      = ((pipelineRings gp ds query).map ringTotal).sum := by
    rw [grandTotalPopulation, List.map_map]
    rfl
  have h2 : sumValues (buildSummary (pipelineRings gp ds query))
      = ((pipelineRings gp ds query).map ringTotal).sum := by
    have h := sumValues_foldl_rings (pipelineRings gp ds query) []
    simpa [buildSummary, sumValues] using h
  have h3 : (((pipelineRings gp ds query).map acceptedPops).flatten).sum
      = ((pipelineRings gp ds query).map ringTotal).sum := by
    rw [List.sum_flatten, List.map_map]
    rfl
  refine ⟨h1.trans h2.symm, h2.trans h3.symm, fun l => ?_⟩
  have h := getD_foldl_rings l (pipelineRings gp ds query) []
  simpa [buildSummary, getD] using h

/-- C3 counterexample: the ring builder of `src/unnamed/part_000`
(cited by the claim) loops from index 1, so on the strictly increasing
distance list [1, 2] it produces only the consecutive-pair ring and no
plain disc for the innermost distance — contradicting the claim that
the ring at index 0 is the plain outer buffer.  The builder of
`src/buffer-dasymetric/src/runtime/widget.tsx` on the same input does
produce the innermost disc. -/
theorem c3_part000_innermost_missing :
    buildRingsPart000 freeGP [1, 2]
      = [(1, Geom.ringShape (Geom.disc 2) (Geom.disc 1))]
    ∧ ((buildRingsPart000 freeGP [1, 2]).map Prod.fst) = [1]
    ∧ (0, Geom.disc 1) ∉ buildRingsPart000 freeGP [1, 2]
    ∧ buildRings freeGP [1, 2]
      = [(0, Geom.disc 1), (1, Geom.ringShape (Geom.disc 2) (Geom.disc 1))] := by
  refine ⟨by decide, by decide, by decide, by decide⟩

/-- C3 (amended): for the builder of
`src/buffer-dasymetric/src/runtime/widget.tsx`, on every nonempty
distance list the ring at index 0 is the plain outer buffer with no
inner subtraction, every ring at index i > 0 whose inner buffer is
non-null is the difference of the two consecutive buffers, and a ring
for the innermost distance is emitted whenever its buffer is non-null. -/
theorem c3_innermost_ring_produced {G : Type} (gp : GeomProvider G) (ds : List ℚ)
    (h0 : ds ≠ []) :
    ringAt gp ds 0 = gp.buffer (ds.getD 0 0)
    ∧ (∀ i, 0 < i → ∀ inn, gp.buffer (ds.getD (i - 1) 0) = some inn →
        ringAt gp ds i = gp.difference (gp.buffer (ds.getD i 0)) (some inn))
    ∧ ∀ g, gp.buffer (ds.getD 0 0) = some g → (0, g) ∈ buildRings gp ds := by
  have hz : ∀ gOpt : Option G,
      (match (if 0 < 0 then gOpt else none : Option G) with
        | some inn => gp.difference (gp.buffer (ds.getD 0 0)) (some inn)
        | none => gp.buffer (ds.getD 0 0)) = gp.buffer (ds.getD 0 0) := fun _ => rfl
  refine ⟨hz (gp.buffer (ds.getD 0 0)), ?_, ?_⟩
  · intro i hi inn hinn
    unfold ringAt
    rw [if_pos hi, hinn]
  · intro g hg
    have hlen : 0 < ds.length := List.length_pos.mpr h0
    have h00 : ringAt gp ds 0 = some g := by
      unfold ringAt
      rw [if_neg (lt_irrefl 0)]
      exact hg
    exact List.mem_filterMap.mpr ⟨0, List.mem_range.mpr hlen, by rw [h00]; rfl⟩

/-- Witness for C3 (amended) on the free provider and distances [1, 2]. -/
theorem c3_witness :
    ringAt freeGP ([1, 2] : List ℚ) 0 = freeGP.buffer 1
    ∧ (0, Geom.disc 1) ∈ buildRings freeGP [1, 2] := by
  have h := c3_innermost_ring_produced freeGP ([1, 2] : List ℚ) (by decide)
  exact ⟨h.1, h.2.2 (Geom.disc 1) (by decide)⟩

/-- Strictly increasing lists have strictly increasing positional
values (with default 0, inside the bounds). -/
lemma sorted_getD (ds : List ℚ) (hs : List.Pairwise (· < ·) ds) (i j : ℕ)
    (hij : i < j) (hj : j < ds.length) : ds.getD i 0 < ds.getD j 0 := by
  have hi : i < ds.length := lt_trans hij hj
  rw [List.getD_eq_getElem?_getD, List.getD_eq_getElem?_getD,
    List.getElem?_eq_getElem hi, List.getElem?_eq_getElem hj]
  exact List.pairwise_iff_getElem.mp hs i j hi hj hij

/-- C4: a null ring geometry at any index is dropped and the loop
continues — the ring list is at most as long as the distance list, its
indices are strictly ascending (hence, with strictly increasing
distances, so are the outer distances of the rings), an index appears
exactly when its ring geometry is non-null, and in particular every
later index is still processed. -/
theorem c4_degenerate_rings_dropped {G : Type} (gp : GeomProvider G) (ds : List ℚ)
    (hs : List.Pairwise (· < ·) ds) :
    (buildRings gp ds).length ≤ ds.length
    ∧ ((buildRings gp ds).map Prod.fst).Pairwise (· < ·)
    ∧ (∀ i, i < ds.length → ∀ g, ringAt gp ds i = some g → (i, g) ∈ buildRings gp ds)
    ∧ (∀ i g, (i, g) ∈ buildRings gp ds → i < ds.length ∧ ringAt gp ds i = some g)
    ∧ ((buildRings gp ds).map fun p => ds.getD p.1 0).Pairwise (· < ·) := by
  have hmem : ∀ i g, (i, g) ∈ buildRings gp ds →
      i < ds.length ∧ ringAt gp ds i = some g := by
    intro i g hm
    obtain ⟨j, hj, hfj⟩ := List.mem_filterMap.mp hm
    obtain ⟨x, hx, hxe⟩ := Option.map_eq_some'.mp hfj
    injection hxe with h1 h2
    subst h1
    subst h2
    exact ⟨List.mem_range.mp hj, hx⟩
  have hpair : (buildRings gp ds).Pairwise (fun p q => p.1 < q.1) := by
    refine List.Pairwise.filterMap _ ?_ (List.pairwise_lt_range ds.length)
    intro a a' haa b hb b' hb'
    rw [Option.mem_def] at hb hb'
    obtain ⟨x, -, hxe⟩ := Option.map_eq_some'.mp hb
    obtain ⟨x', -, hxe'⟩ := Option.map_eq_some'.mp hb'
    subst hxe
    subst hxe'
    simpa using haa
  have hpair2 : (buildRings gp ds).Pairwise
      (fun p q => ds.getD p.1 0 < ds.getD q.1 0) := by
    refine List.Pairwise.imp_of_mem ?_ hpair
    intro p q hp hq hlt
    obtain ⟨hq1, -⟩ := hmem q.1 q.2 (by simpa using hq)
    exact sorted_getD ds hs p.1 q.1 hlt hq1
  refine ⟨?_, List.pairwise_map.mpr hpair, ?_, hmem, List.pairwise_map.mpr hpair2⟩
  · simpa using List.length_filterMap_le _ (List.range ds.length)
  · intro i hi g hg
    exact List.mem_filterMap.mpr ⟨i, List.mem_range.mpr hi, by rw [hg]; rfl⟩

/-- A provider on which the consecutive-pair difference at index 1
degenerates (the engine returns null there), used to witness the
dropped-ring behavior. -/
def gpDrop : GeomProvider Geom where
  buffer d := some (.disc d)
  difference a b :=
    match a, b with
    | some x, some y => if y = Geom.disc 1 then none else some (.ringShape x y)
    | _, _ => none

/-- Witness for C4: with distances [1, 2, 3] and a provider whose
difference degenerates at index 1, the ring at index 1 is dropped while
index 0 and index 2 are still emitted. -/
theorem c4_witness :
    List.Pairwise (· < ·) ([1, 2, 3] : List ℚ)
    ∧ (buildRings gpDrop [1, 2, 3]).length ≤ ([1, 2, 3] : List ℚ).length
    ∧ (2, Geom.ringShape (Geom.disc 3) (Geom.disc 2)) ∈ buildRings gpDrop [1, 2, 3] := by
  have hs : List.Pairwise (· < ·) ([1, 2, 3] : List ℚ) := by decide
  have h := c4_degenerate_rings_dropped gpDrop [1, 2, 3] hs
  exact ⟨hs, h.1, h.2.2.1 2 (by decide) _ (by decide)⟩

/-- C8: an input whose coordinate strings do not parse to numbers
(modelled by a NaN parse result) or whose latitude or longitude is out
of range is rejected by `processPoint` with a single descriptive error
message, before any geometry work: the trace of projection, buffer and
query operations is empty. -/
theorem c8_invalid_input_rejected_before_geometry {G : Type} (gp : GeomProvider G)
    (ds : List ℚ) (inp : CoordInput)
    (h : inp.lat = none ∨ inp.lon = none
       ∨ (∃ la, inp.lat = some la ∧ (la < -90 ∨ la > 90))
       ∨ (∃ lo, inp.lon = some lo ∧ (lo < -180 ∨ lo > 180))) :
    ∃ e, runProcessPoint gp ds inp = (.error e, []) := by
  have hval : ∃ e, validateInput inp = .error e := by
    unfold validateInput
    by_cases hempty : (inp.latEmpty || inp.lonEmpty || inp.nameEmpty) = true
    · rw [if_pos hempty]
      exact ⟨_, rfl⟩
    · rw [if_neg hempty]
      cases hlat : inp.lat with
      | none =>
        cases hlon : inp.lon with
        | none => exact ⟨_, rfl⟩
        | some lo => exact ⟨_, rfl⟩
      | some la =>
        cases hlon : inp.lon with
        | none => exact ⟨_, rfl⟩
        | some lo =>
          have hrange : la < -90 ∨ la > 90 ∨ lo < -180 ∨ lo > 180 := by
            rcases h with h | h | ⟨la2, hla2, hr⟩ | ⟨lo2, hlo2, hr⟩
            · rw [hlat] at h; cases h
            · rw [hlon] at h; cases h
            · rw [hlat] at hla2
              injection hla2 with he
              subst he
              exact hr.elim Or.inl (fun hx => Or.inr (Or.inl hx))
            · rw [hlon] at hlo2
              injection hlo2 with he
              subst he
              exact hr.elim (fun hx => Or.inr (Or.inr (Or.inl hx)))
                (fun hx => Or.inr (Or.inr (Or.inr hx)))
          exact ⟨_, by dsimp only; rw [if_pos hrange]⟩
  obtain ⟨e, he⟩ := hval
  exact ⟨e, by rw [runProcessPoint, he]⟩

/-- Witness for C8 at latitude 200 (out of range). -/
theorem c8_witness :
    ∃ e, runProcessPoint freeGP [1]
      ⟨false, false, false, some 200, some 10⟩ = (.error e, []) :=
  c8_invalid_input_rejected_before_geometry freeGP [1]
    ⟨false, false, false, some 200, some 10⟩
    (Or.inr (Or.inr (Or.inl ⟨200, rfl, Or.inr (by decide)⟩)))

/-- C9 counterexample: on the empty distances list, `processPoint` of
`src/unnamed/part_002` loads the projection engine and projects the
point first, and only then fails (with a caught processing error, not a
synchronous input-validation failure) — contradicting the claim that
the rejection happens before any geometry call, projection included. -/
theorem c9_projection_precedes_empty_rejection :
    runPart002 freeGP true true true true []
      = (.error "Error processing data: No valid buffers were created.",
         [GeoOp.projLoad, GeoOp.project])
    ∧ GeoOp.project ∈ (runPart002 freeGP true true true true []).2 := by
  refine ⟨rfl, ?_⟩
  rw [show (runPart002 freeGP true true true true []).2
      = [GeoOp.projLoad, GeoOp.project] from rfl]
  exact List.mem_cons.mpr (Or.inr (List.mem_cons.mpr (Or.inl rfl)))

/-- C9 (amended): for every map-view, site-name, census-layer and
projection outcome, `processPoint` of `src/unnamed/part_002` on the
empty distances list fails with an error before any buffer call and
before any data-source query — but possibly after the projection step,
which is all the geometry work its trace can contain. -/
theorem c9_empty_distances_no_buffer_no_query {G : Type} (gp : GeomProvider G)
    (hasMapView hasSiteName hasCensusLayer projectOk : Bool) :
    (∃ e, (runPart002 gp hasMapView hasSiteName hasCensusLayer projectOk []).1
        = Except.error e)
    ∧ ∀ op ∈ (runPart002 gp hasMapView hasSiteName hasCensusLayer projectOk []).2,
        op = GeoOp.projLoad ∨ op = GeoOp.project := by
  cases hasMapView <;> cases hasSiteName <;> cases hasCensusLayer <;>
    cases projectOk <;> simp [runPart002]

/-- Witness for C9 (amended) with every collaborator available. -/
theorem c9_witness :
    (∃ e, (runPart002 freeGP true true true true []).1 = Except.error e)
    ∧ (GeoOp.projLoad = GeoOp.projLoad ∨ GeoOp.projLoad = GeoOp.project) := by
  have h := c9_empty_distances_no_buffer_no_query freeGP true true true true
  exact ⟨h.1, h.2 GeoOp.projLoad (by decide)⟩

end Widgets
